import Mathlib

/-!
Shallow embedding of the connection lifecycle engine of the Connect-Campus
repository (backend/controllers/connection.controller.js, here
src/unnamed/part_003).  Identifiers are modelled as strings, matching the
JavaScript `.toString()` comparisons on Mongo object ids; the three Mongo
collections (users, connection requests, notifications) are modelled as
lists inside a single `DB` record.  Each controller is a pure function from
the database and the authenticated actor to an HTTP-style response together
with the updated database.
-/

namespace ConnectCampus

/-- Account/request/notification identifiers: Mongo object ids, compared by
their string form in the source. -/
abbrev Id := String

/-- The status enum of `connectionRequest.model.js`: pending, accepted,
rejected. -/
inductive ReqStatus where
  | pending
  | accepted
  | rejected
deriving DecidableEq, Repr

/-- A `ConnectionRequest` document: `_id`, `sender`, `recipient`, `status`. -/
structure ConnectionRequest where
  rid : Id
  sender : Id
  recipient : Id
  status : ReqStatus
deriving DecidableEq, Repr

/-- A `User` document, restricted to the fields the engine reads and writes:
`_id` and the `connections` array of account ids. -/
structure Account where
  aid : Id
  connections : List Id
deriving DecidableEq, Repr

/-- Notification types appearing in the notification model's enum. -/
inductive NotifType where
  | connectionAccepted
  | comment
  | like
deriving DecidableEq, Repr

/-- A `Notification` document, restricted to the fields the engine writes:
`recipient`, `type`, `relatedUser`. -/
structure Notification where
  recipient : Id
  type : NotifType
  relatedUser : Id
deriving DecidableEq, Repr

/-- The persistent state of the three collections touched by the engine. -/
structure DB where
  accounts : List Account
  requests : List ConnectionRequest
  notifications : List Notification
deriving DecidableEq, Repr

/-- An HTTP-style response: `res.status(n).json({message})`; a bare
`res.json` defaults to status 200. -/
structure HttpResponse where
  status : Nat
  message : String
deriving DecidableEq, Repr

/-- `User.findById(i)`: first account whose `_id` is `i`. -/
def findAccount (db : DB) (i : Id) : Option Account :=
  db.accounts.find? (fun a => a.aid = i)

/-- `ConnectionRequest.findById(i)`: first request whose `_id` is `i`. -/
def findRequestById (db : DB) (i : Id) : Option ConnectionRequest :=
  db.requests.find? (fun r => r.rid = i)

/-- `ConnectionRequest.findOne({sender: s, recipient: t, status: "pending"})`
as issued by `sendConnectionRequest`: the query is directional, matching only
requests whose sender is `s` and recipient is `t`. -/
def findOnePendingDirected (db : DB) (s t : Id) : Option ConnectionRequest :=
  db.requests.find? (fun r => r.sender = s ∧ r.recipient = t ∧ r.status = .pending)

/-- `ConnectionRequest.findOne({$or: [{sender: a, recipient: b},
{sender: b, recipient: a}], status: "pending"})` as issued by
`getConnectionStatus`: matches a pending request in either direction. -/
def findOnePendingEither (db : DB) (a b : Id) : Option ConnectionRequest :=
  db.requests.find? (fun r =>
    ((r.sender = a ∧ r.recipient = b) ∨ (r.sender = b ∧ r.recipient = a)) ∧
      r.status = .pending)

/-- The per-document action of `$addToSet: {connections: c}` on the account
with id `i`: append `c` unless already present; other accounts untouched. -/
def addToSetAccount (i c : Id) (a : Account) : Account :=
  if a.aid = i then
    { a with connections :=
        if c ∈ a.connections then a.connections else a.connections ++ [c] }
  else a

/-- `User.findByIdAndUpdate(i, {$addToSet: {connections: c}})`: appends `c`
to the connections array of the account with id `i` unless already present;
a missing id is a no-op (mongoose returns null without writing). -/
def addToSetConnection (db : DB) (i c : Id) : DB :=
  { db with accounts := db.accounts.map (addToSetAccount i c) }

/-- The per-document action of `$pull: {connections: c}` on the account
with id `i`: drop every occurrence of `c`; other accounts untouched. -/
def pullAccount (i c : Id) (a : Account) : Account :=
  if a.aid = i then
    { a with connections := a.connections.filter (fun x => x ≠ c) }
  else a

/-- `User.findByIdAndUpdate(i, {$pull: {connections: c}})`: removes every
occurrence of `c` from the connections array of the account with id `i`;
a missing id is a no-op. -/
def pullConnection (db : DB) (i c : Id) : DB :=
  { db with accounts := db.accounts.map (pullAccount i c) }

/-- The per-document action of `request.status = st; request.save()`. -/
def setStatusOn (i : Id) (st : ReqStatus) (r : ConnectionRequest) :
    ConnectionRequest :=
  if r.rid = i then { r with status := st } else r

/-- `request.status = st; await request.save()`: persists the new status on
the request with the given id. -/
def setRequestStatus (db : DB) (i : Id) (st : ReqStatus) : DB :=
  { db with requests := db.requests.map (setStatusOn i st) }

/-- Modelled from the spec: the schema file `connectionRequest.model.js` is
not present under src/; per the spec, `send` "creates a new
ConnectionRequest{sender: actorId, recipient: targetId, status: pending}",
so the schema default for `status` is `pending`. -/
def defaultNewRequestStatus : ReqStatus := .pending

/-- `sendConnectionRequest`: the actor is `req.user` (the authenticated
account loaded by the auth middleware), `targetId` is `req.params.userId`,
and `newId` is the fresh `_id` Mongo assigns to the created document. -/
def sendConnectionRequest (db : DB) (actor : Account) (targetId newId : Id) :
    HttpResponse × DB :=
  if actor.aid = targetId then
    (⟨400, "You cannot send connection request to yourself"⟩, db)
  else if targetId ∈ actor.connections then
    (⟨400, "You are already connected"⟩, db)
  else
    match findOnePendingDirected db actor.aid targetId with
    | some _ => (⟨400, "A connection request already sent"⟩, db)
    | none =>
        (⟨201, "Connection request sent successfully"⟩,
         { db with requests := db.requests ++
             [⟨newId, actor.aid, targetId, defaultNewRequestStatus⟩] })

/-- `acceptConnectionRequest`: `actorId` is `req.user._id`, `requestId` is
`req.params.requestId`.  The populated `request.recipient._id` and
`request.sender._id` are the stored recipient and sender ids. -/
def acceptConnectionRequest (db : DB) (actorId requestId : Id) :
    HttpResponse × DB :=
  match findRequestById db requestId with
  | none => (⟨404, "Connection request not found"⟩, db)
  | some request =>
      if request.recipient ≠ actorId then
        (⟨403, "You are not authorized to accept this request"⟩, db)
      else if request.status ≠ .pending then
        (⟨400, "This request has already been accepted"⟩, db)
      else
        let db1 := setRequestStatus db requestId .accepted
        let db2 := addToSetConnection db1 request.sender actorId
        let db3 := addToSetConnection db2 actorId request.sender
        let db4 := { db3 with notifications := db3.notifications ++
            [⟨request.sender, .connectionAccepted, actorId⟩] }
        (⟨200, "Connection request accepted"⟩, db4)

/-- `rejectConnectionRequest`: unlike accept, the source never checks the
result of `findById` for null; when no request has the given id,
`request.recipient.toString()` throws a TypeError that the surrounding catch
turns into a 500 "Internal server error" response. -/
def rejectConnectionRequest (db : DB) (actorId requestId : Id) :
    HttpResponse × DB :=
  match findRequestById db requestId with
  | none => (⟨500, "Internal server error"⟩, db)
  | some request =>
      if request.recipient ≠ actorId then
        (⟨403, "You are not authorized to reject this request"⟩, db)
      else if request.status ≠ .pending then
        (⟨400, "This request has already been processed"⟩, db)
      else
        (⟨200, "Connection request rejected"⟩,
         setRequestStatus db requestId .rejected)

/-- `removeConnection`: pulls `targetId` from the actor's connections and
the actor from the target's connections, unconditionally, then reports
success (bare `res.json`, status 200). -/
def removeConnection (db : DB) (actorId targetId : Id) : HttpResponse × DB :=
  (⟨200, "Connection removed successfully"⟩,
   pullConnection (pullConnection db actorId targetId) targetId actorId)

/-- The JSON classification returned by `getConnectionStatus`. -/
inductive StatusResult where
  | connected
  | pending
  | received (requestId : Id)
  | not_connected
deriving DecidableEq, Repr

/-- `getConnectionStatus`: the actor is `req.user`, `targetId` is
`req.params.userId`.  Read-only. -/
def getConnectionStatus (db : DB) (actor : Account) (targetId : Id) :
    StatusResult :=
  if targetId ∈ actor.connections then .connected
  else
    match findOnePendingEither db actor.aid targetId with
    | some r => if r.sender = actor.aid then .pending else .received r.rid
    | none => .not_connected

/-- A request lies between the unordered pair `{a, b}`: its endpoints are
`a` and `b` in either direction. -/
def matchesPair (r : ConnectionRequest) (a b : Id) : Prop :=
  (r.sender = a ∧ r.recipient = b) ∨ (r.sender = b ∧ r.recipient = a)

instance (r : ConnectionRequest) (a b : Id) : Decidable (matchesPair r a b) := by
  unfold matchesPair; infer_instance

/-- The stored `connections` relation is symmetric: whenever one stored
account's id appears in another stored account's connections array, the
converse also holds. -/
def symmConnections (db : DB) : Prop :=
  ∀ a ∈ db.accounts, ∀ b ∈ db.accounts,
    a.aid ∈ b.connections → b.aid ∈ a.connections

instance (db : DB) : Decidable (symmConnections db) := by
  unfold symmConnections; infer_instance

/-! ### Helper lemmas -/

/-- `find?` by a key commutes with mapping a key-preserving function. -/
theorem find?_key_map {α : Type} (key : α → Id) (l : List α) (f : α → α)
    (hf : ∀ a, key (f a) = key a) (i : Id) :
    (l.map f).find? (fun a => key a = i) =
      (l.find? (fun a => key a = i)).map f := by
  induction l with
  | nil => rfl
  | cons x xs ih =>
      by_cases h : key x = i
      · rw [List.map_cons, List.find?_cons_of_pos _ (by simp [hf, h]),
          List.find?_cons_of_pos _ (by simp [h])]
        rfl
      · rw [List.map_cons, List.find?_cons_of_neg _ (by simp [hf, h]),
          List.find?_cons_of_neg _ (by simp [h]), ih]

theorem findAccount_map (db : DB) (f : Account → Account)
    (hf : ∀ a, (f a).aid = a.aid) (i : Id) :
    findAccount { db with accounts := db.accounts.map f } i =
      (findAccount db i).map f := by
  unfold findAccount
  exact find?_key_map (fun a => a.aid) db.accounts f hf i

theorem findRequest_map (db : DB) (f : ConnectionRequest → ConnectionRequest)
    (hf : ∀ r, (f r).rid = r.rid) (i : Id) :
    findRequestById { db with requests := db.requests.map f } i =
      (findRequestById db i).map f := by
  unfold findRequestById
  exact find?_key_map (fun r => r.rid) db.requests f hf i

/-- The element returned by `findAccount` has the id that was queried. -/
theorem findAccount_aid {db : DB} {i : Id} {a : Account}
    (h : findAccount db i = some a) : a.aid = i := by
  have := List.find?_some h
  simpa using this

/-- The element returned by `findRequestById` has the id that was queried. -/
theorem findRequestById_rid {db : DB} {i : Id} {r : ConnectionRequest}
    (h : findRequestById db i = some r) : r.rid = i := by
  have := List.find?_some h
  simpa using this

/-- The request returned by `findOnePendingEither` is pending and lies
between the queried unordered pair. -/
theorem findOnePendingEither_spec {db : DB} {a b : Id} {r : ConnectionRequest}
    (h : findOnePendingEither db a b = some r) :
    matchesPair r a b ∧ r.status = .pending := by
  have := List.find?_some h
  simp only [decide_eq_true_eq] at this
  exact ⟨this.1, this.2⟩

/-! ### C7: order of `send` precondition checks and its effect -/

/-- C7: `send(actorId, targetId)` checks its preconditions in a fixed order
where the first failure wins: `send(A, A)` fails with InvalidOperation
(400, cannot target self); else a target already in the actor's connections
fails with Conflict (400, already connected); else a blocking pending
request fails with Conflict (400, request already sent); otherwise it
creates exactly one new ConnectionRequest with sender = actorId,
recipient = targetId, status = pending, and returns success (201). -/
theorem C7_send_check_order_and_effect (db : DB) (actor : Account)
    (targetId newId : Id) :
    (actor.aid = targetId →
      sendConnectionRequest db actor targetId newId =
        (⟨400, "You cannot send connection request to yourself"⟩, db)) ∧
    (actor.aid ≠ targetId → targetId ∈ actor.connections →
      sendConnectionRequest db actor targetId newId =
        (⟨400, "You are already connected"⟩, db)) ∧
    (actor.aid ≠ targetId → targetId ∉ actor.connections →
      findOnePendingDirected db actor.aid targetId ≠ none →
      sendConnectionRequest db actor targetId newId =
        (⟨400, "A connection request already sent"⟩, db)) ∧
    (actor.aid ≠ targetId → targetId ∉ actor.connections →
      findOnePendingDirected db actor.aid targetId = none →
      sendConnectionRequest db actor targetId newId =
        (⟨201, "Connection request sent successfully"⟩,
         { db with requests := db.requests ++
             [⟨newId, actor.aid, targetId, .pending⟩] })) := by
  refine ⟨?_, ?_, ?_, ?_⟩
  · intro h
    unfold sendConnectionRequest
    rw [if_pos h]
  · intro h1 h2
    unfold sendConnectionRequest
    rw [if_neg h1, if_pos h2]
  · intro h1 h2 h3
    obtain ⟨r, hr⟩ := Option.ne_none_iff_exists'.mp h3
    unfold sendConnectionRequest
    rw [if_neg h1, if_neg h2, hr]
  · intro h1 h2 h3
    unfold sendConnectionRequest
    rw [if_neg h1, if_neg h2, h3]
    rfl

theorem C7_witness :
    sendConnectionRequest ⟨[⟨"A", []⟩, ⟨"B", []⟩], [], []⟩ ⟨"A", []⟩ "B" "r1" =
      (⟨201, "Connection request sent successfully"⟩,
       ⟨[⟨"A", []⟩, ⟨"B", []⟩], [⟨"r1", "A", "B", .pending⟩], []⟩) :=
  (C7_send_check_order_and_effect ⟨[⟨"A", []⟩, ⟨"B", []⟩], [], []⟩
      ⟨"A", []⟩ "B" "r1").2.2.2 (by decide) (by decide) (by decide)

/-! ### C1: which pending requests block a new `send` -/

/-- C1 (counterexample): the claim says a pending request between the
unordered pair in either direction makes `send(A, B)` fail with Conflict
and create no request.  With a pending request whose sender is B and
recipient is A (and A ≠ B, B not among A's connections), `send(A, B)`
nevertheless succeeds with 201 and appends a second request: the query in
the source filters on `sender: senderId, recipient: userId` only. -/
theorem C1_counterexample :
    ("A" : Id) ≠ "B" ∧ ("B" : Id) ∉ ([] : List Id) ∧
    matchesPair ⟨"r1", "B", "A", .pending⟩ "A" "B" ∧
    (sendConnectionRequest
        ⟨[⟨"A", []⟩, ⟨"B", []⟩], [⟨"r1", "B", "A", .pending⟩], []⟩
        ⟨"A", []⟩ "B" "r2").1.status = 201 ∧
    (sendConnectionRequest
        ⟨[⟨"A", []⟩, ⟨"B", []⟩], [⟨"r1", "B", "A", .pending⟩], []⟩
        ⟨"A", []⟩ "B" "r2").2.requests =
      [⟨"r1", "B", "A", .pending⟩, ⟨"r2", "A", "B", .pending⟩] := by
  decide

/-- C1 (amended): for every actor A and target B with A ≠ B and B not in
A's connections, if a request with status pending exists whose sender is A
and recipient is B — that direction only — then `send(A, B)` fails with
Conflict (400) and creates no new ConnectionRequest; a pending request in
the opposite direction does not block. -/
theorem C1_send_conflict_on_outgoing_pending (db : DB) (actor : Account)
    (targetId newId : Id) (r : ConnectionRequest)
    (hne : actor.aid ≠ targetId) (hnc : targetId ∉ actor.connections)
    (hr : findOnePendingDirected db actor.aid targetId = some r) :
    sendConnectionRequest db actor targetId newId =
      (⟨400, "A connection request already sent"⟩, db) := by
  unfold sendConnectionRequest
  rw [if_neg hne, if_neg hnc, hr]

theorem C1_witness :
    sendConnectionRequest
        ⟨[⟨"A", []⟩, ⟨"B", []⟩], [⟨"r1", "A", "B", .pending⟩], []⟩
        ⟨"A", []⟩ "B" "r2" =
      (⟨400, "A connection request already sent"⟩,
       ⟨[⟨"A", []⟩, ⟨"B", []⟩], [⟨"r1", "A", "B", .pending⟩], []⟩) :=
  C1_send_conflict_on_outgoing_pending _ _ _ _ ⟨"r1", "A", "B", .pending⟩
    (by decide) (by decide) (by decide)

/-! ### C9: `send` never checks that the target account exists -/

/-- C9: for every actor A and identifier X with X ≠ A.id, X not in A's
connections, and no blocking pending request, `send(A, X)` succeeds with
201 and creates a pending ConnectionRequest whose recipient is X, even when
no account with id X exists in the account directory. -/
theorem C9_send_ignores_target_existence (db : DB) (actor : Account)
    (x newId : Id) (hghost : findAccount db x = none)
    (hne : actor.aid ≠ x) (hnc : x ∉ actor.connections)
    (hnp : findOnePendingDirected db actor.aid x = none) :
    sendConnectionRequest db actor x newId =
      (⟨201, "Connection request sent successfully"⟩,
       { db with requests := db.requests ++
           [⟨newId, actor.aid, x, .pending⟩] }) := by
  unfold sendConnectionRequest
  rw [if_neg hne, if_neg hnc, hnp]
  rfl

theorem C9_witness :
    sendConnectionRequest ⟨[⟨"A", []⟩], [], []⟩ ⟨"A", []⟩ "X" "r1" =
      (⟨201, "Connection request sent successfully"⟩,
       ⟨[⟨"A", []⟩], [⟨"r1", "A", "X", .pending⟩], []⟩) :=
  C9_send_ignores_target_existence ⟨[⟨"A", []⟩], [], []⟩ ⟨"A", []⟩ "X" "r1"
    (by decide) (by decide) (by decide) (by decide)

/-! ### C6: `status` classification precedence -/

/-- C6: `status(actorId, targetId)` classifies with this precedence: if
targetId is in the actor's connections it returns connected; else if a
pending request exists between the unordered pair it returns pending when
the actor is its sender, and received together with the request id when the
target is its sender (requests satisfy sender ≠ recipient); else it
returns not_connected. -/
theorem C6_status_classification (db : DB) (actor : Account) (targetId : Id) :
    (targetId ∈ actor.connections →
      getConnectionStatus db actor targetId = .connected) ∧
    (targetId ∉ actor.connections →
      ∀ r, findOnePendingEither db actor.aid targetId = some r →
        (r.sender = actor.aid →
          getConnectionStatus db actor targetId = .pending) ∧
        (r.sender ≠ r.recipient → r.sender = targetId →
          getConnectionStatus db actor targetId = .received r.rid)) ∧
    (targetId ∉ actor.connections →
      findOnePendingEither db actor.aid targetId = none →
      getConnectionStatus db actor targetId = .not_connected) := by
  refine ⟨?_, ?_, ?_⟩
  · intro h
    unfold getConnectionStatus
    rw [if_pos h]
  · intro h r hr
    constructor
    · intro hs
      unfold getConnectionStatus
      rw [if_neg h, hr]
      simp [hs]
    · intro hsr hst
      have hspec := findOnePendingEither_spec hr
      have hne2 : ¬ r.sender = actor.aid := by
        rcases hspec.1 with ⟨h1, h2⟩ | ⟨h1, h2⟩
        · exact absurd (hst.trans h2.symm) hsr
        · intro he
          exact hsr (he.trans h2.symm)
      unfold getConnectionStatus
      rw [if_neg h, hr]
      simp [hne2]
  · intro h hn
    unfold getConnectionStatus
    rw [if_neg h, hn]

theorem C6_witness :
    getConnectionStatus
        ⟨[⟨"A", []⟩, ⟨"B", []⟩], [⟨"r1", "B", "A", .pending⟩], []⟩
        ⟨"A", []⟩ "B" = .received "r1" :=
  ((C6_status_classification
      ⟨[⟨"A", []⟩, ⟨"B", []⟩], [⟨"r1", "B", "A", .pending⟩], []⟩
      ⟨"A", []⟩ "B").2.1 (by decide) ⟨"r1", "B", "A", .pending⟩
      (by decide)).2 (by decide) (by decide)

/-! ### C4: `reject` on a missing request id -/

/-- C4: the claim says `reject(actorId, requestId)` fails with NotFound
(404) when no request with the given id exists.  The source never
null-checks the result of `findById`; with no matching request,
`request.recipient.toString()` throws and the catch handler answers 500
"Internal server error" instead of 404.  This theorem evaluates the model
at such a failing input. -/
theorem C4_reject_missing_request_returns_500 :
    findRequestById ⟨[⟨"me", []⟩], [], []⟩ "missing" = none ∧
    rejectConnectionRequest ⟨[⟨"me", []⟩], [], []⟩ "me" "missing" =
      (⟨500, "Internal server error"⟩, ⟨[⟨"me", []⟩], [], []⟩) := by
  decide

/-! ### C10: `removeConnection` -/

theorem filter_self_idem {α : Type} (p : α → Bool) (l : List α) :
    (l.filter p).filter p = l.filter p := by
  simp [List.filter_filter]

theorem pullAccount_aid (i c : Id) (a : Account) :
    (pullAccount i c a).aid = a.aid := by
  unfold pullAccount
  by_cases h : a.aid = i <;> simp [h]

/-- Membership after one `$pull` write: the old members minus the pulled
id on the targeted account. -/
theorem mem_pullAccount (i c : Id) (x : Account) (y : Id) :
    y ∈ (pullAccount i c x).connections ↔
      y ∈ x.connections ∧ ¬(x.aid = i ∧ y = c) := by
  unfold pullAccount
  by_cases h : x.aid = i
  · rw [if_pos h]
    simp [List.mem_filter, h]
  · rw [if_neg h]
    simp [h]

/-- Membership in the connections of an account after the two `$pull`
writes of `removeConnection`: precisely the old members except the ordered
pairs (actor, target) and (target, actor). -/
theorem mem_pull_step (a t : Id) (x : Account) (y : Id) :
    y ∈ (pullAccount t a (pullAccount a t x)).connections ↔
      y ∈ x.connections ∧ ¬(x.aid = a ∧ y = t) ∧ ¬(x.aid = t ∧ y = a) := by
  rw [mem_pullAccount, mem_pullAccount, pullAccount_aid]
  tauto

theorem pull_step_aid (a t : Id) (x : Account) :
    (pullAccount t a (pullAccount a t x)).aid = x.aid := by
  rw [pullAccount_aid, pullAccount_aid]

/-- The combined per-account step of `removeConnection` is idempotent. -/
theorem pull_step_idem (a t : Id) (x : Account) :
    pullAccount t a (pullAccount a t (pullAccount t a (pullAccount a t x))) =
      pullAccount t a (pullAccount a t x) := by
  by_cases h1 : x.aid = a
  · by_cases h2 : x.aid = t
    · have h3 : a = t := h1.symm.trans h2
      subst h3
      simp [pullAccount, h1, filter_self_idem]
    · have h3 : ¬ a = t := fun he => h2 (h1.trans he)
      simp [pullAccount, h1, h2, h3, filter_self_idem]
  · by_cases h2 : x.aid = t
    · have h3 : ¬ t = a := fun he => h1 (h2.trans he)
      simp [pullAccount, h1, h2, h3, filter_self_idem]
    · simp [pullAccount, h1, h2]

/-- C10: `removeConnection(actorId, targetId)` unconditionally removes
targetId from the actor's connections and actorId from the target's
connections and reports success, with no precondition that the two were
connected; it is idempotent, and it preserves the symmetry of the
connections relation. -/
theorem C10_removeConnection_props (db : DB) (actorId targetId : Id) :
    (removeConnection db actorId targetId).1 =
      ⟨200, "Connection removed successfully"⟩ ∧
    (∀ acc ∈ (removeConnection db actorId targetId).2.accounts,
      (acc.aid = actorId → targetId ∉ acc.connections) ∧
      (acc.aid = targetId → actorId ∉ acc.connections)) ∧
    (removeConnection (removeConnection db actorId targetId).2 actorId
        targetId).2 = (removeConnection db actorId targetId).2 ∧
    (symmConnections db →
      symmConnections (removeConnection db actorId targetId).2) := by
  refine ⟨rfl, ?_, ?_, ?_⟩
  · intro acc hacc
    unfold removeConnection pullConnection at hacc
    simp only [List.mem_map] at hacc
    obtain ⟨b, ⟨x, hx, rfl⟩, rfl⟩ := hacc
    constructor
    · intro ha hmem
      have := (mem_pull_step actorId targetId x targetId).mp hmem
      rw [pull_step_aid] at ha
      exact this.2.1 ⟨ha, rfl⟩
    · intro ht hmem
      have := (mem_pull_step actorId targetId x actorId).mp hmem
      rw [pull_step_aid] at ht
      exact this.2.2 ⟨ht, rfl⟩
  · unfold removeConnection pullConnection
    simp only [List.map_map]
    have hmap :
        db.accounts.map
            (pullAccount targetId actorId ∘ pullAccount actorId targetId ∘
              pullAccount targetId actorId ∘ pullAccount actorId targetId) =
          db.accounts.map
            (pullAccount targetId actorId ∘ pullAccount actorId targetId) :=
      List.map_congr_left (fun x _ => pull_step_idem actorId targetId x)
    rw [hmap]
  · intro hsym
    intro p hp q hq hmem
    unfold removeConnection pullConnection at hp hq
    simp only [List.mem_map] at hp hq
    obtain ⟨b1, ⟨x, hx, rfl⟩, rfl⟩ := hp
    obtain ⟨b2, ⟨z, hz, rfl⟩, rfl⟩ := hq
    rw [mem_pull_step, pull_step_aid] at hmem
    obtain ⟨hmem0, hn1, hn2⟩ := hmem
    have hzx := hsym x hx z hz hmem0
    rw [mem_pull_step, pull_step_aid]
    refine ⟨hzx, ?_, ?_⟩
    · rintro ⟨hxa, hzt⟩
      exact hn2 ⟨hzt, hxa⟩
    · rintro ⟨hxt, hza⟩
      exact hn1 ⟨hza, hxt⟩

theorem C10_witness :
    (removeConnection ⟨[⟨"A", ["B"]⟩, ⟨"B", ["A"]⟩], [], []⟩ "A" "B").1 =
      ⟨200, "Connection removed successfully"⟩ ∧
    symmConnections
      (removeConnection ⟨[⟨"A", ["B"]⟩, ⟨"B", ["A"]⟩], [], []⟩ "A" "B").2 :=
  ⟨(C10_removeConnection_props ⟨[⟨"A", ["B"]⟩, ⟨"B", ["A"]⟩], [], []⟩
      "A" "B").1,
   (C10_removeConnection_props ⟨[⟨"A", ["B"]⟩, ⟨"B", ["A"]⟩], [], []⟩
      "A" "B").2.2.2 (by decide)⟩

/-! ### Branch equations for `accept` and `reject` -/

theorem setStatusOn_rid (i : Id) (st : ReqStatus) (r : ConnectionRequest) :
    (setStatusOn i st r).rid = r.rid := by
  unfold setStatusOn
  by_cases h : r.rid = i <;> simp [h]

theorem findRequestById_setRequestStatus (db : DB) (i j : Id)
    (st : ReqStatus) :
    findRequestById (setRequestStatus db i st) j =
      (findRequestById db j).map (setStatusOn i st) :=
  findRequest_map db (setStatusOn i st) (setStatusOn_rid i st) j

theorem addToSetAccount_aid (i c : Id) (a : Account) :
    (addToSetAccount i c a).aid = a.aid := by
  unfold addToSetAccount
  by_cases h : a.aid = i <;> simp [h]

theorem mem_addToSetAccount_self (i c : Id) (a : Account) (h : a.aid = i) :
    c ∈ (addToSetAccount i c a).connections := by
  unfold addToSetAccount
  rw [if_pos h]
  by_cases hc : c ∈ a.connections <;> simp [hc]

theorem mem_addToSetAccount_mono (i c y : Id) (a : Account)
    (h : y ∈ a.connections) :
    y ∈ (addToSetAccount i c a).connections := by
  unfold addToSetAccount
  by_cases hi : a.aid = i
  · rw [if_pos hi]
    by_cases hc : c ∈ a.connections <;> simp [hc, h]
  · rw [if_neg hi]
    exact h

theorem findAccount_addToSet (db : DB) (i c y : Id) :
    findAccount (addToSetConnection db i c) y =
      (findAccount db y).map (addToSetAccount i c) :=
  findAccount_map db (addToSetAccount i c) (addToSetAccount_aid i c) y

theorem accept_notFound_eq (db : DB) (actorId requestId : Id)
    (h : findRequestById db requestId = none) :
    acceptConnectionRequest db actorId requestId =
      (⟨404, "Connection request not found"⟩, db) := by
  unfold acceptConnectionRequest
  rw [h]

theorem accept_forbidden_eq (db : DB) (actorId requestId : Id)
    (r : ConnectionRequest) (hr : findRequestById db requestId = some r)
    (hrec : r.recipient ≠ actorId) :
    acceptConnectionRequest db actorId requestId =
      (⟨403, "You are not authorized to accept this request"⟩, db) := by
  unfold acceptConnectionRequest
  rw [hr]
  simp [hrec]

theorem accept_conflict_eq (db : DB) (actorId requestId : Id)
    (r : ConnectionRequest) (hr : findRequestById db requestId = some r)
    (hrec : r.recipient = actorId) (hst : r.status ≠ .pending) :
    acceptConnectionRequest db actorId requestId =
      (⟨400, "This request has already been accepted"⟩, db) := by
  unfold acceptConnectionRequest
  rw [hr]
  simp [hrec, hst]

theorem accept_success_eq (db : DB) (actorId requestId : Id)
    (r : ConnectionRequest) (hr : findRequestById db requestId = some r)
    (hrec : r.recipient = actorId) (hst : r.status = .pending) :
    acceptConnectionRequest db actorId requestId =
      (⟨200, "Connection request accepted"⟩,
       { addToSetConnection
           (addToSetConnection (setRequestStatus db requestId .accepted)
             r.sender actorId) actorId r.sender with
         notifications := db.notifications ++
           [⟨r.sender, .connectionAccepted, actorId⟩] }) := by
  unfold acceptConnectionRequest
  rw [hr]
  simp [hrec, hst]
  rfl

theorem reject_success_eq (db : DB) (actorId requestId : Id)
    (r : ConnectionRequest) (hr : findRequestById db requestId = some r)
    (hrec : r.recipient = actorId) (hst : r.status = .pending) :
    rejectConnectionRequest db actorId requestId =
      (⟨200, "Connection request rejected"⟩,
       setRequestStatus db requestId .rejected) := by
  unfold rejectConnectionRequest
  rw [hr]
  simp [hrec, hst]

/-! ### C3: order of `accept` precondition checks -/

/-- C3: `accept(actorId, requestId)` fails with NotFound (404) if no
request with that id exists; else with Forbidden (403) if the actor is not
the request's recipient; else with Conflict (400) if the status is not
pending — so reject followed by accept on the same request id fails with
Conflict.  On each of these failures the state is returned unchanged. -/
theorem C3_accept_precondition_order (db : DB) (actorId requestId : Id) :
    (findRequestById db requestId = none →
      acceptConnectionRequest db actorId requestId =
        (⟨404, "Connection request not found"⟩, db)) ∧
    (∀ r, findRequestById db requestId = some r → r.recipient ≠ actorId →
      acceptConnectionRequest db actorId requestId =
        (⟨403, "You are not authorized to accept this request"⟩, db)) ∧
    (∀ r, findRequestById db requestId = some r → r.recipient = actorId →
      r.status ≠ .pending →
      acceptConnectionRequest db actorId requestId =
        (⟨400, "This request has already been accepted"⟩, db)) ∧
    (∀ r, findRequestById db requestId = some r → r.recipient = actorId →
      r.status = .pending →
      acceptConnectionRequest (rejectConnectionRequest db actorId requestId).2
          actorId requestId =
        (⟨400, "This request has already been accepted"⟩,
         (rejectConnectionRequest db actorId requestId).2)) := by
  refine ⟨?_, ?_, ?_, ?_⟩
  · exact accept_notFound_eq db actorId requestId
  · exact fun r hr hrec => accept_forbidden_eq db actorId requestId r hr hrec
  · exact fun r hr hrec hst => accept_conflict_eq db actorId requestId r hr hrec hst
  · intro r hr hrec hst
    rw [reject_success_eq db actorId requestId r hr hrec hst]
    have hrid : r.rid = requestId := findRequestById_rid hr
    have hfind2 : findRequestById (setRequestStatus db requestId .rejected)
        requestId = some { r with status := .rejected } := by
      rw [findRequestById_setRequestStatus, hr]
      simp [setStatusOn, hrid]
    exact accept_conflict_eq _ actorId requestId _ hfind2 hrec (by simp)

theorem C3_witness :
    acceptConnectionRequest
        (rejectConnectionRequest
          ⟨[⟨"A", []⟩, ⟨"B", []⟩], [⟨"r1", "A", "B", .pending⟩], []⟩
          "B" "r1").2 "B" "r1" =
      (⟨400, "This request has already been accepted"⟩,
       (rejectConnectionRequest
          ⟨[⟨"A", []⟩, ⟨"B", []⟩], [⟨"r1", "A", "B", .pending⟩], []⟩
          "B" "r1").2) :=
  (C3_accept_precondition_order
      ⟨[⟨"A", []⟩, ⟨"B", []⟩], [⟨"r1", "A", "B", .pending⟩], []⟩
      "B" "r1").2.2.2 ⟨"r1", "A", "B", .pending⟩
    (by decide) (by decide) (by decide)

/-! ### C5: which operations create notifications -/

/-- C5: the engine creates a `connectionAccepted` notification only on a
successful accept, appended to the original sender's log with
`relatedUser` equal to the accepting recipient — never for the accepting
recipient (requests satisfy sender ≠ recipient) — while send, reject and
removeConnection create no notification at all, and a failed accept
leaves the log unchanged. -/
theorem C5_connectionAccepted_notification_discipline (db : DB)
    (actor : Account) (targetId newId actorId requestId : Id) :
    (sendConnectionRequest db actor targetId newId).2.notifications =
      db.notifications ∧
    (rejectConnectionRequest db actorId requestId).2.notifications =
      db.notifications ∧
    (removeConnection db actorId targetId).2.notifications =
      db.notifications ∧
    ((acceptConnectionRequest db actorId requestId).1.status ≠ 200 →
      (acceptConnectionRequest db actorId requestId).2.notifications =
        db.notifications) ∧
    (∀ r, findRequestById db requestId = some r →
      (acceptConnectionRequest db actorId requestId).1.status = 200 →
      (acceptConnectionRequest db actorId requestId).2.notifications =
        db.notifications ++ [⟨r.sender, .connectionAccepted, actorId⟩] ∧
      (r.sender ≠ r.recipient → r.sender ≠ actorId)) := by
  refine ⟨?_, ?_, rfl, ?_, ?_⟩
  · unfold sendConnectionRequest
    split
    · rfl
    · split
      · rfl
      · split <;> rfl
  · unfold rejectConnectionRequest
    split
    · rfl
    · split
      · rfl
      · split <;> rfl
  · intro h
    cases hfind : findRequestById db requestId with
    | none => rw [accept_notFound_eq db actorId requestId hfind]
    | some r =>
        by_cases hrec : r.recipient = actorId
        · by_cases hst : r.status = .pending
          · exact absurd (by rw [accept_success_eq db actorId requestId r
              hfind hrec hst]) h
          · rw [accept_conflict_eq db actorId requestId r hfind hrec hst]
        · rw [accept_forbidden_eq db actorId requestId r hfind hrec]
  · intro r hr hok
    by_cases hrec : r.recipient = actorId
    · by_cases hst : r.status = .pending
      · refine ⟨?_, ?_⟩
        · rw [accept_success_eq db actorId requestId r hr hrec hst]
        · intro hsr he
          exact hsr (he.trans hrec.symm)
      · rw [accept_conflict_eq db actorId requestId r hr hrec hst] at hok
        exact absurd hok (by simp)
    · rw [accept_forbidden_eq db actorId requestId r hr hrec] at hok
      exact absurd hok (by simp)

theorem C5_witness :
    (acceptConnectionRequest
        ⟨[⟨"A", []⟩, ⟨"B", []⟩], [⟨"r1", "A", "B", .pending⟩], []⟩
        "B" "r1").2.notifications =
      [⟨"A", .connectionAccepted, "B"⟩] ∧ ("A" : Id) ≠ "B" :=
  ⟨((C5_connectionAccepted_notification_discipline
      ⟨[⟨"A", []⟩, ⟨"B", []⟩], [⟨"r1", "A", "B", .pending⟩], []⟩
      ⟨"A", []⟩ "B" "r1" "B" "r1").2.2.2.2 ⟨"r1", "A", "B", .pending⟩
      (by decide) (by decide)).1,
   ((C5_connectionAccepted_notification_discipline
      ⟨[⟨"A", []⟩, ⟨"B", []⟩], [⟨"r1", "A", "B", .pending⟩], []⟩
      ⟨"A", []⟩ "B" "r1" "B" "r1").2.2.2.2 ⟨"r1", "A", "B", .pending⟩
      (by decide) (by decide)).2 (by decide)⟩

/-! ### C2: a successful accept connects both accounts symmetrically -/

theorem findAccount_setRequestStatus (db : DB) (i : Id) (st : ReqStatus)
    (y : Id) :
    findAccount (setRequestStatus db i st) y = findAccount db y := rfl

/-- C2: after accept succeeds on a pending request from A (sender) to B
(recipient), A is in B's connections and B is in A's connections, so that
status(A, B) and status(B, A) — each computed with the account re-read
from the updated store — both return connected. -/
theorem C2_accept_makes_connected (db : DB) (requestId : Id)
    (r : ConnectionRequest) (hr : findRequestById db requestId = some r)
    (hst : r.status = .pending) (accA accB : Account)
    (hA : findAccount db r.sender = some accA)
    (hB : findAccount db r.recipient = some accB) :
    (acceptConnectionRequest db r.recipient requestId).1.status = 200 ∧
    ∃ accA' accB',
      findAccount (acceptConnectionRequest db r.recipient requestId).2
          r.sender = some accA' ∧
      findAccount (acceptConnectionRequest db r.recipient requestId).2
          r.recipient = some accB' ∧
      r.recipient ∈ accA'.connections ∧ r.sender ∈ accB'.connections ∧
      getConnectionStatus (acceptConnectionRequest db r.recipient requestId).2
          accA' r.recipient = .connected ∧
      getConnectionStatus (acceptConnectionRequest db r.recipient requestId).2
          accB' r.sender = .connected := by
  rw [accept_success_eq db r.recipient requestId r hr rfl hst]
  have haidA : accA.aid = r.sender := findAccount_aid hA
  have haidB : accB.aid = r.recipient := findAccount_aid hB
  have hfA : findAccount
      { addToSetConnection
          (addToSetConnection (setRequestStatus db requestId .accepted)
            r.sender r.recipient) r.recipient r.sender with
        notifications := db.notifications ++
          [⟨r.sender, .connectionAccepted, r.recipient⟩] } r.sender =
      some (addToSetAccount r.recipient r.sender
        (addToSetAccount r.sender r.recipient accA)) := by
    show findAccount (addToSetConnection
        (addToSetConnection (setRequestStatus db requestId .accepted)
          r.sender r.recipient) r.recipient r.sender) r.sender = _
    rw [findAccount_addToSet, findAccount_addToSet,
      findAccount_setRequestStatus, hA]
    rfl
  have hfB : findAccount
      { addToSetConnection
          (addToSetConnection (setRequestStatus db requestId .accepted)
            r.sender r.recipient) r.recipient r.sender with
        notifications := db.notifications ++
          [⟨r.sender, .connectionAccepted, r.recipient⟩] } r.recipient =
      some (addToSetAccount r.recipient r.sender
        (addToSetAccount r.sender r.recipient accB)) := by
    show findAccount (addToSetConnection
        (addToSetConnection (setRequestStatus db requestId .accepted)
          r.sender r.recipient) r.recipient r.sender) r.recipient = _
    rw [findAccount_addToSet, findAccount_addToSet,
      findAccount_setRequestStatus, hB]
    rfl
  have hmemA : r.recipient ∈ (addToSetAccount r.recipient r.sender
      (addToSetAccount r.sender r.recipient accA)).connections :=
    mem_addToSetAccount_mono _ _ _ _
      (mem_addToSetAccount_self r.sender r.recipient accA haidA)
  have hmemB : r.sender ∈ (addToSetAccount r.recipient r.sender
      (addToSetAccount r.sender r.recipient accB)).connections :=
    mem_addToSetAccount_self r.recipient r.sender
      (addToSetAccount r.sender r.recipient accB)
      ((addToSetAccount_aid r.sender r.recipient accB).trans haidB)
  refine ⟨rfl, _, _, hfA, hfB, hmemA, hmemB, ?_, ?_⟩
  · unfold getConnectionStatus
    rw [if_pos hmemA]
  · unfold getConnectionStatus
    rw [if_pos hmemB]

theorem C2_witness :
    (acceptConnectionRequest
        ⟨[⟨"A", []⟩, ⟨"B", []⟩], [⟨"r1", "A", "B", .pending⟩], []⟩
        "B" "r1").1.status = 200 ∧
    ∃ accA' accB',
      findAccount (acceptConnectionRequest
          ⟨[⟨"A", []⟩, ⟨"B", []⟩], [⟨"r1", "A", "B", .pending⟩], []⟩
          "B" "r1").2 "A" = some accA' ∧
      findAccount (acceptConnectionRequest
          ⟨[⟨"A", []⟩, ⟨"B", []⟩], [⟨"r1", "A", "B", .pending⟩], []⟩
          "B" "r1").2 "B" = some accB' ∧
      ("B" : Id) ∈ accA'.connections ∧ ("A" : Id) ∈ accB'.connections ∧
      getConnectionStatus (acceptConnectionRequest
          ⟨[⟨"A", []⟩, ⟨"B", []⟩], [⟨"r1", "A", "B", .pending⟩], []⟩
          "B" "r1").2 accA' "B" = .connected ∧
      getConnectionStatus (acceptConnectionRequest
          ⟨[⟨"A", []⟩, ⟨"B", []⟩], [⟨"r1", "A", "B", .pending⟩], []⟩
          "B" "r1").2 accB' "A" = .connected :=
  C2_accept_makes_connected
    ⟨[⟨"A", []⟩, ⟨"B", []⟩], [⟨"r1", "A", "B", .pending⟩], []⟩ "r1"
    ⟨"r1", "A", "B", .pending⟩ (by decide) (by decide)
    ⟨"A", []⟩ ⟨"B", []⟩ (by decide) (by decide)

/-! ### C8: effect and frame of a successful reject -/

theorem setStatusOn_sender (i : Id) (st : ReqStatus) (q : ConnectionRequest) :
    (setStatusOn i st q).sender = q.sender := by
  unfold setStatusOn
  by_cases h : q.rid = i <;> simp [h]

theorem setStatusOn_recipient (i : Id) (st : ReqStatus)
    (q : ConnectionRequest) :
    (setStatusOn i st q).recipient = q.recipient := by
  unfold setStatusOn
  by_cases h : q.rid = i <;> simp [h]

/-- C8: a successful reject sets the request's status to rejected and
changes nothing else — accounts and notifications are untouched, the
request store changes only at that request id — and afterwards a status
call by the sender's account about the recipient sees no pending request,
returning not_connected (assuming the pair is not connected and the
rejected request was the only pending one between them). -/
theorem C8_reject_effect_and_frame (db : DB) (actorId requestId : Id)
    (r : ConnectionRequest) (accA : Account)
    (hr : findRequestById db requestId = some r)
    (hrec : r.recipient = actorId) (hst : r.status = .pending)
    (haid : accA.aid = r.sender)
    (hnoconn : r.recipient ∉ accA.connections)
    (honly : ∀ q ∈ db.requests, matchesPair q r.sender r.recipient →
      q.status = .pending → q.rid = requestId) :
    rejectConnectionRequest db actorId requestId =
      (⟨200, "Connection request rejected"⟩,
       setRequestStatus db requestId .rejected) ∧
    (rejectConnectionRequest db actorId requestId).2.accounts =
      db.accounts ∧
    (rejectConnectionRequest db actorId requestId).2.notifications =
      db.notifications ∧
    (rejectConnectionRequest db actorId requestId).2.requests =
      db.requests.map (setStatusOn requestId .rejected) ∧
    getConnectionStatus (rejectConnectionRequest db actorId requestId).2
      accA r.recipient = .not_connected := by
  have heq := reject_success_eq db actorId requestId r hr hrec hst
  have hnone : findOnePendingEither (setRequestStatus db requestId .rejected)
      accA.aid r.recipient = none := by
    unfold findOnePendingEither setRequestStatus
    rw [List.find?_eq_none]
    intro q' hq'
    simp only [List.mem_map] at hq'
    obtain ⟨q, hq, rfl⟩ := hq'
    by_cases hqr : q.rid = requestId
    · simp [setStatusOn, hqr]
    · simp only [setStatusOn, if_neg hqr, decide_eq_true_eq, not_and]
      intro hpair hpend
      rw [haid] at hpair
      exact absurd (honly q hq hpair hpend) hqr
  refine ⟨heq, by rw [heq]; rfl, by rw [heq]; rfl, by rw [heq]; rfl, ?_⟩
  rw [heq]
  unfold getConnectionStatus
  rw [if_neg hnoconn, hnone]

theorem C8_witness :
    getConnectionStatus
      (rejectConnectionRequest
        ⟨[⟨"A", []⟩, ⟨"B", []⟩], [⟨"r1", "A", "B", .pending⟩], []⟩
        "B" "r1").2 ⟨"A", []⟩ "B" = .not_connected :=
  (C8_reject_effect_and_frame
      ⟨[⟨"A", []⟩, ⟨"B", []⟩], [⟨"r1", "A", "B", .pending⟩], []⟩
      "B" "r1" ⟨"r1", "A", "B", .pending⟩ ⟨"A", []⟩
      (by decide) (by decide) (by decide) (by decide) (by decide)
      (by decide)).2.2.2.2

end ConnectCampus
